import Mathlib

/-!
Shallow embedding of the `catchery` validation helpers
(`src/catchery/validation.py`) together with the parts of the error-handler
API they call (`handle`, `log_warning`, `safe_execute`); the error-handler
module itself is not among the repository files, so those three are modelled
from the specification text and marked as such in their doc comments.

Python dynamic values are embedded as the inductive `PyVal`.  Finite floats
are modelled as exact rationals; the special values `nan`, `inf` and `-inf`
are modelled explicitly because `int()` raises on them, which the helpers'
control flow depends on.  Message strings follow the source f-strings, with
two approximations noted where they occur (float rendering, object `repr`
addresses); no theorem below depends on those renderings.
-/

namespace Catchery

/-- Python float values: finite floats are exact rationals (IEEE rounding is
not modelled; none of the verified properties depend on it), plus the special
values `nan`, `inf` and `-inf`, on which `int()` raises. -/
inductive PFloat where
  | fin  (q : Rat)
  | nan
  | inf
  | ninf
deriving DecidableEq, Repr

/-- The exception classes the library code distinguishes: `except`-clauses in
`validation.py` catch `(ValueError, TypeError)`, so `OverflowError` (raised by
`int(float("inf"))`) must be kept apart; `baseException` stands for the plain
`Exception` class used by `validate_object`. -/
inductive ExcKind where
  | valueError
  | typeError
  | overflowError
  | baseException
deriving DecidableEq, Repr

/-- A raised Python exception: its class and its message (`str(e)`). -/
structure PyExc where
  kind : ExcKind
  msg  : String
deriving DecidableEq, Repr

/-- Python values as the validation helpers consume them.  A generic object
carries a class name and its attribute table; only explicitly present
attributes are modelled (`hasattr`/`getattr` consult this table). -/
inductive PyVal where
  | none
  | bool  (b : Bool)
  | int   (n : Int)
  | float (f : PFloat)
  | str   (s : String)
  | list  (xs : List PyVal)
  | obj   (cls : String) (attrs : List (String × PyVal))

/-- The check `v is None`, used throughout the source. -/
def isNoneVal : PyVal → Bool
  | .none => true
  | _ => false

/-- The Python classes that appear as `expected_type` arguments. -/
inductive PyType where
  | tNone
  | tBool
  | tInt
  | tFloat
  | tStr
  | tList
  | tObjClass (c : String)
deriving DecidableEq, Repr

/-- One element of an `expected_type` argument: a class, or the literal value
`None` (which the source code tests for with `None in expected_type`, and
which makes `isinstance` raise `TypeError`). -/
inductive TypeElem where
  | ty (t : PyType)
  | noneLit
deriving DecidableEq, Repr

/-- An `expected_type` argument: a single class-or-None, or a tuple of them. -/
inductive TypeSpec where
  | one (e : TypeElem)
  | tup (es : List TypeElem)
deriving DecidableEq, Repr

/-- `type(v)` for an embedded value. -/
def typeOf : PyVal → PyType
  | .none => .tNone
  | .bool _ => .tBool
  | .int _ => .tInt
  | .float _ => .tFloat
  | .str _ => .tStr
  | .list _ => .tList
  | .obj c _ => .tObjClass c

/-- `isinstance(v, t)` for a single class; `bool` is a subclass of `int` in
Python, so booleans are instances of `int` as well. -/
def isInst : PyVal → PyType → Bool
  | .none, .tNone => true
  | .bool _, .tBool => true
  | .bool _, .tInt => true
  | .int _, .tInt => true
  | .float _, .tFloat => true
  | .str _, .tStr => true
  | .list _, .tList => true
  | .obj c _, .tObjClass c2 => c == c2
  | _, _ => false

/-- The `TypeError` that `isinstance` raises when the second argument holds
something that is not a class (here: the literal `None`). -/
def isinstanceTypeError : PyExc :=
  ⟨.typeError, "isinstance() arg 2 must be a type or tuple of types"⟩

/-- `isinstance(v, tup)` walks the tuple left to right and returns `True` at
the first match; a `None` entry reached before a match raises `TypeError`. -/
def isinstanceElems (v : PyVal) : List TypeElem → Except PyExc Bool
  | [] => .ok false
  | .ty t :: rest => if isInst v t then .ok true else isinstanceElems v rest
  | .noneLit :: _ => .error isinstanceTypeError

/-- `isinstance(v, expected_type)` over the embedded `expected_type` shape. -/
def isinstanceSpec (v : PyVal) : TypeSpec → Except PyExc Bool
  | .one (.ty t) => .ok (isInst v t)
  | .one .noneLit => .error isinstanceTypeError
  | .tup es => isinstanceElems v es

/-- `t.__name__` for the embedded classes. -/
def typeName : PyType → String
  | .tNone => "NoneType"
  | .tBool => "bool"
  | .tInt => "int"
  | .tFloat => "float"
  | .tStr => "str"
  | .tList => "list"
  | .tObjClass c => c

/-- `_get_type_display_name` on one tuple element: a class gives its name,
the value `None` gives `type(None).__name__`. -/
def displayElem : TypeElem → String
  | .ty t => typeName t
  | .noneLit => "NoneType"

/-- `_get_type_display_name` on an `expected_type`: tuples are joined with
commas inside parentheses (validation.py lines 15-31). -/
def displaySpec : TypeSpec → String
  | .one e => displayElem e
  | .tup es => "(" ++ String.intercalate ", " (es.map displayElem) ++ ")"

/-- Rendering of a float for messages and `str()`: an approximation of
Python float repr (exact rational shown; specials as Python prints them). -/
def floatStr : PFloat → String
  | .fin q => toString q
  | .nan => "nan"
  | .inf => "inf"
  | .ninf => "-inf"

mutual

/-- `str(v)`.  For generic objects Python prints class and address; the
address is not modelled. -/
def pyStr : PyVal → String
  | .none => "None"
  | .bool b => if b then "True" else "False"
  | .int n => toString n
  | .float f => floatStr f
  | .str s => s
  | .list xs => "[" ++ pyReprList xs ++ "]"
  | .obj c _ => "<" ++ c ++ " object>"

/-- `repr(v)` as used for elements inside a printed list: like `str` except
that strings gain surrounding quotes. -/
def pyRepr : PyVal → String
  | .none => "None"
  | .bool b => if b then "True" else "False"
  | .int n => toString n
  | .float f => floatStr f
  | .str s => "\x27" ++ s ++ "\x27"
  | .list xs => "[" ++ pyReprList xs ++ "]"
  | .obj c _ => "<" ++ c ++ " object>"

/-- Comma-joined `repr`s of the elements of a printed list. -/
def pyReprList : List PyVal → String
  | [] => ""
  | [x] => pyRepr x
  | x :: xs => pyRepr x ++ ", " ++ pyReprList xs

end

/-- Decimal digits folded into a natural number. -/
def digitsToNat (cs : List Char) : Nat :=
  cs.foldl (fun a c => a * 10 + (c.toNat - 48)) 0

/-- Surrounding-whitespace strip on a character list (`str.strip()`),
written structurally so that it evaluates by reduction. -/
def trimChars (cs : List Char) : List Char :=
  ((cs.dropWhile Char.isWhitespace).reverse.dropWhile Char.isWhitespace).reverse

/-- `int(s)` for a string: optional surrounding whitespace, optional sign,
then decimal digits (underscore separators and non-decimal bases are not
modelled; no theorem depends on them). -/
def parseIntString (s : String) : Option Int :=
  let cs := trimChars s.toList
  match cs with
  | '+' :: rest =>
    if rest ≠ [] ∧ rest.all Char.isDigit then some (digitsToNat rest) else Option.none
  | '-' :: rest =>
    if rest ≠ [] ∧ rest.all Char.isDigit then some (-(digitsToNat rest : Int)) else Option.none
  | rest =>
    if rest ≠ [] ∧ rest.all Char.isDigit then some (digitsToNat rest) else Option.none

/-- Unsigned decimal with an optional point, as an exact rational. -/
def parseDecimal (cs : List Char) : Option Rat :=
  let intPart := cs.takeWhile (fun c => c ≠ '.')
  let rest := cs.dropWhile (fun c => c ≠ '.')
  match rest with
  | [] =>
    if intPart ≠ [] ∧ intPart.all Char.isDigit then some (digitsToNat intPart : Rat)
    else Option.none
  | '.' :: frac =>
    if (intPart ≠ [] ∨ frac ≠ []) ∧ intPart.all Char.isDigit ∧ frac.all Char.isDigit then
      some ((digitsToNat intPart : Rat) + (digitsToNat frac : Rat) / ((10 : Rat) ^ frac.length))
    else Option.none
  | _ => Option.none

/-- `float(s)` for a string: optional sign, decimal with optional point, or
the words inf/infinity/nan (case-insensitive); exponents are not modelled. -/
def parseFloatString (s : String) : Option PFloat :=
  let t := (trimChars s.toList).map Char.toLower
  let core : List Char → Option PFloat := fun cs =>
    if cs = ['i', 'n', 'f'] ∨ cs = ['i', 'n', 'f', 'i', 'n', 'i', 't', 'y'] then some .inf
    else if cs = ['n', 'a', 'n'] then some .nan
    else (parseDecimal cs).map .fin
  match t with
  | '+' :: rest => core rest
  | '-' :: rest =>
    (core rest).map (fun f =>
      match f with
      | .fin q => .fin (-q)
      | .inf => .ninf
      | x => x)
  | rest => core rest

/-- Truncation of a rational toward zero, as `int(float)` does. -/
def ratTrunc (q : Rat) : Int := Int.tdiv q.num (q.den : Int)

/-- `int(v)`: identity on ints, 0/1 on bools, truncation on finite floats;
`ValueError` on `nan` and unparsable strings, `OverflowError` on infinities,
`TypeError` on values that are not a string or a number. -/
def pyToInt : PyVal → Except PyExc Int
  | .int n => .ok n
  | .bool b => .ok (if b then 1 else 0)
  | .float (.fin q) => .ok (ratTrunc q)
  | .float .nan => .error ⟨.valueError, "cannot convert float NaN to integer"⟩
  | .float .inf => .error ⟨.overflowError, "cannot convert float infinity to integer"⟩
  | .float .ninf => .error ⟨.overflowError, "cannot convert float infinity to integer"⟩
  | .str s =>
    match parseIntString s with
    | some n => .ok n
    | Option.none => .error ⟨.valueError, "invalid literal for int() with base 10: " ++ s⟩
  | _ => .error ⟨.typeError, "int() argument must be a string, a bytes-like object or a number"⟩

/-- `float(v)`. -/
def pyToFloat : PyVal → Except PyExc PFloat
  | .float f => .ok f
  | .bool b => .ok (.fin (if b then 1 else 0))
  | .int n => .ok (.fin (n : Rat))
  | .str s =>
    match parseFloatString s with
    | some f => .ok f
    | Option.none => .error ⟨.valueError, "could not convert string to float: " ++ s⟩
  | _ => .error ⟨.typeError, "float() argument must be a string or a number"⟩

/-- `bool(v)`: Python truthiness.  Never raises. -/
def pyToBool : PyVal → Bool
  | .none => false
  | .bool b => b
  | .int n => n != 0
  | .float (.fin q) => q != 0
  | .float _ => true
  | .str s => s != ""
  | .list xs => !xs.isEmpty
  | .obj _ _ => true

-- ===========================================================================
-- Error-handler model (spec-modelled: error_handler.py is not among the
-- repository sources; only the validation module and examples are)
-- ===========================================================================

/-- The ordered severity enumeration (spec section 3). -/
inductive ErrorSeverity where
  | LOW
  | MEDIUM
  | HIGH
  | CRITICAL
deriving DecidableEq, Repr

/-- A context mapping: ordered string-keyed pairs, as a Python dict. -/
abbrev Ctx := List (String × PyVal)

/-- Python dict update `d[k] = v` (and one step of `{**d, k: v}`): an existing
key keeps its position and gets the new value, a new key is appended. -/
def ctxSet (c : Ctx) (k : String) (v : PyVal) : Ctx :=
  if c.any (fun p => p.1 == k) then
    c.map (fun p => if p.1 == k then (k, v) else p)
  else c ++ [(k, v)]

/-- A dict display `{**base, k1: v1, ..., kn: vn}`. -/
def ctxSets (base : Ctx) (ps : List (String × PyVal)) : Ctx :=
  ps.foldl (fun acc p => ctxSet acc p.1 p.2) base

/-- Modelled from the spec: the ErrorRecord built by `ErrorHandler.handle`
(spec section 3); the timestamp field is real time and is not modelled. -/
structure ErrorRecord where
  message   : String
  severity  : ErrorSeverity
  context   : Ctx
  exception : Option PyExc

/-- Modelled from the spec: the `ErrorHandler` state the validation helpers
can observe: the capture-scope stack (innermost first) and the sequence of
records forwarded to the configured sinks (spec sections 3 and 4.1).  The
context-scope stack and sink configuration are not modelled: no claim about
the validation helpers observes them. -/
structure Handler where
  captures : List (List ErrorRecord)
  sink     : List ErrorRecord

/-- Total number of records the handler has received (captured or written). -/
def recCount (h : Handler) : Nat :=
  h.sink.length + (h.captures.map List.length).sum

/-- Modelled from the spec: `ErrorHandler.handle` (spec section 4.1;
error_handler.py is not among the repository sources).  Builds a record; while a
capture scope is active the record is appended to the innermost scope and
nothing is raised; otherwise the record goes to the sinks and, when
`raise_exception` is true, the supplied exception (or a generic error
carrying the message) is raised. -/
def handle (message : String) (severity : ErrorSeverity) (context : Ctx)
    (exception : Option PyExc) (raise_exception : Bool) (h : Handler) :
    Handler × Option PyExc :=
  let record : ErrorRecord := ⟨message, severity, context, exception⟩
  match h.captures with
  | c :: rest => (⟨(c ++ [record]) :: rest, h.sink⟩, Option.none)
  | [] =>
    let h1 : Handler := ⟨[], h.sink ++ [record]⟩
    if raise_exception then
      (h1, Option.some (exception.getD ⟨.baseException, message⟩))
    else (h1, Option.none)

/-- Modelled from the spec: the `log_warning` convenience function (spec
section 4.3) delegates to the default handler method `handle` with the severity
fixed at the warning level (MEDIUM) and `raise_exception=False`. -/
def log_warning (message : String) (context : Ctx) (h : Handler) : Handler :=
  (handle message .MEDIUM context Option.none false h).1

/-- Modelled from the spec: `ErrorHandler.safe_execute` (spec section 4.1;
error_handler.py is not among the repository sources).  The callable is modelled as
a fallible state transformer on the handler; on success its result is
returned, on any raised error `handle` is called with the caught exception
and `raise_exception=False` and the caller-supplied default is returned. -/
def safe_execute (f : Handler → Except PyExc PyVal × Handler) (default : PyVal)
    (error_message : String) (severity : ErrorSeverity) (context : Ctx)
    (h : Handler) : PyVal × Handler :=
  match f h with
  | (.ok v, h1) => (v, h1)
  | (.error e, h1) =>
    (default, (handle error_message severity context (Option.some e) false h1).1)

-- ===========================================================================
-- validation.py: support functions
-- ===========================================================================

/-- `hasattr(v, a)`: only the explicit attribute tables of generic objects
are modelled; built-in dunder attributes are not. -/
def pyHasattr : PyVal → String → Bool
  | .obj _ attrs, a => attrs.any (fun p => p.1 == a)
  | _, _ => false

/-- `getattr(v, a)` with a fallback (the source only calls it under
`hasattr`). -/
def pyGetattr (v : PyVal) (a : String) (dflt : PyVal) : PyVal :=
  match v with
  | .obj _ attrs => (((attrs.find? (fun p => p.1 == a)).map Prod.snd).getD dflt)
  | _ => dflt

/-- Python repr of a list of attribute-name strings, for the message of
`validate_object` (`f"{missing_attrs}"`). -/
def strListRepr (xs : List String) : String :=
  "[" ++ String.intercalate ", " (xs.map (fun s => "\x27" ++ s ++ "\x27")) ++ "]"

/-- Whether an exception is caught by `except (ValueError, TypeError)`
(validation.py line 62): `OverflowError` is not. -/
def catchesValueType (e : PyExc) : Bool :=
  e.kind == .valueError || e.kind == .typeError

/-- The pure part of `_attempt_default_conversion` (validation.py lines
34-69): the converted value for the four built-in targets, `none` when the
elif-chain falls through (target not one of the four, or the object already
an instance of it), or the exception `str`/`int`/`float` raises. -/
def attempt_default_conversion_val (obj : PyVal) (t : TypeElem) :
    Except PyExc (Option PyVal) :=
  match t with
  | .ty .tStr =>
    if !(isInst obj .tStr) then .ok (Option.some (.str (pyStr obj))) else .ok Option.none
  | .ty .tInt =>
    if !(isInst obj .tInt) then (pyToInt obj).map (fun n => Option.some (.int n))
    else .ok Option.none
  | .ty .tFloat =>
    if !(isInst obj .tFloat) then (pyToFloat obj).map (fun f => Option.some (.float f))
    else .ok Option.none
  | .ty .tBool =>
    if !(isInst obj .tBool) then .ok (Option.some (.bool (pyToBool obj)))
    else .ok Option.none
  | _ => .ok Option.none

/-- `_attempt_default_conversion` (validation.py lines 34-69): tries the
built-in conversion; on a `ValueError`/`TypeError` logs a warning and
returns `None`; any other exception (`OverflowError` from `int(inf)`)
propagates. -/
def _attempt_default_conversion (obj : PyVal) (t : TypeElem) (name : String)
    (ctx : Ctx) (h : Handler) : Except PyExc (Option PyVal) × Handler :=
  match attempt_default_conversion_val obj t with
  | .ok r => (.ok r, h)
  | .error e =>
    if catchesValueType e then
      let tn := displayElem t
      let em := e.msg
      let msg := s!"Default conversion of \x27{name}\x27 to {tn} failed: {em}. Using default."
      (.ok Option.none, log_warning msg (ctxSet ctx "error_details" (.str em)) h)
    else (.error e, h)

-- ===========================================================================
-- validation.py: validation functions
-- ===========================================================================

/-- The message of `validate_object` for a `None` object (line 118). -/
def validate_none_message (name : String) : String :=
  s!"Required object \x27{name}\x27 is None"

/-- The message of `validate_object` for missing attributes (line 141). -/
def missing_attrs_message (name : String) (missing : List String) : String :=
  let ms := strListRepr missing
  s!"{name} missing required attributes: {ms}"

/-- The body of `validate_object` from line 128 on: the enriched context gets
`actual_type`, then the attribute check runs (an empty or absent `attributes`
list is falsy and skipped) and either raises through `handle` or returns the
object (validation.py lines 128-152). -/
def validate_object_rest (obj : PyVal) (name : String) (ctx : Ctx)
    (attributes : Option (List String)) (h : Handler) :
    Except PyExc PyVal × Handler :=
  let ctx2 := ctxSet ctx "actual_type" (.str (typeName (typeOf obj)))
  match attributes with
  | Option.none => (.ok obj, h)
  | Option.some attrs =>
    if attrs.isEmpty then (.ok obj, h)
    else
      let missing := attrs.filter (fun a => !(pyHasattr obj a))
      if missing.isEmpty then (.ok obj, h)
      else
        let msg := missing_attrs_message name missing
        match handle msg .HIGH (ctxSet ctx2 "error_details" (.str msg))
            (Option.some ⟨.baseException, msg⟩) true h with
        | (h1, Option.some e) => (.error e, h1)
        | (h1, Option.none) => (.ok obj, h1)

/-- `validate_object` (validation.py lines 77-152): a `None` object is routed
through `handle` with `raise_exception=True`; when `handle` does return (a
capture scope is active), execution falls through to the attribute check, as
in the source.  Missing attributes are also routed through `handle` with
`raise_exception=True`; otherwise the object is returned. -/
def validate_object (obj : PyVal) (name : String) (context : Option Ctx)
    (attributes : Option (List String)) (h : Handler) :
    Except PyExc PyVal × Handler :=
  let ctx := ctxSets (context.getD [])
    [("param_name", .str name), ("object_attempted", obj)]
  if isNoneVal obj then
    let msg := validate_none_message name
    match handle msg .HIGH (ctxSet ctx "error_details" (.str msg))
        (Option.some ⟨.baseException, msg⟩) true h with
    | (h1, Option.some e) => (.error e, h1)
    | (h1, Option.none) => validate_object_rest obj name ctx attributes h1
  else validate_object_rest obj name ctx attributes h

/-- The mismatch message of `validate_type` (lines 193-195). -/
def type_mismatch_message (name : String) (expected_type : TypeSpec)
    (obj : PyVal) : String :=
  let en := displaySpec expected_type
  let an := typeName (typeOf obj)
  s!"Invalid {name}: expected {en}, got {an}"

/-- `validate_type` (validation.py lines 155-214): first `validate_object`
(no attributes), then the `isinstance` check; a mismatch is routed through
`handle` with a `ValueError` and `raise_exception=True`; when `handle` does
return (a capture scope is active) the object is returned as in the source. -/
def validate_type (obj : PyVal) (name : String) (expected_type : TypeSpec)
    (context : Option Ctx) (h : Handler) : Except PyExc PyVal × Handler :=
  match validate_object obj name context Option.none h with
  | (.error e, h1) => (.error e, h1)
  | (.ok _, h1) =>
    match isinstanceSpec obj expected_type with
    | .error e => (.error e, h1)
    | .ok true => (.ok obj, h1)
    | .ok false =>
      let msg := type_mismatch_message name expected_type obj
      let ctx := ctxSets (context.getD [])
        [("param_name", .str name), ("object_attempted", obj),
         ("expected_type", .str (displaySpec expected_type)),
         ("actual_type", .str (typeName (typeOf obj))),
         ("error_details", .str msg)]
      match handle msg .HIGH ctx (Option.some ⟨.valueError, msg⟩) true h1 with
      | (h2, Option.some e) => (.error e, h2)
      | (h2, Option.none) => (.ok obj, h2)

-- ===========================================================================
-- validation.py: conversion functions
-- ===========================================================================

/-- The condition under which `ensure_object` accepts `None` as a valid value
(validation.py lines 281-284): `allow_none` and either the expected-type
tuple contains the value `None` or the expected type is `type(None)`. -/
def none_allowed (expected_type : TypeSpec) (allow_none : Bool) : Bool :=
  allow_none &&
    ((match expected_type with
      | .tup es => es.contains .noneLit
      | _ => false) ||
     expected_type == .one (.ty .tNone))

/-- The `for t in expected_type` loop of `ensure_object` (lines 319-322):
tries the default conversion on each tuple element, stopping at the first
result that `is not None`; an uncaught exception propagates. -/
def ensure_object_tuple_loop (obj : PyVal) (name : String) (ctx : Ctx) :
    List TypeElem → Handler → Except PyExc (Option PyVal) × Handler
  | [], h => (.ok Option.none, h)
  | t :: ts, h =>
    match _attempt_default_conversion obj t name ctx h with
    | (.error e, h1) => (.error e, h1)
    | (.ok (Option.some v), h1) => (.ok (Option.some v), h1)
    | (.ok Option.none, h1) => ensure_object_tuple_loop obj name ctx ts h1

/-- The validator stage at the end of `ensure_object` (lines 338-354): no
validator returns the processed object; a falsy validator result or a raising
validator logs a warning and returns the default. -/
def ensure_object_finish (processed : PyVal) (name : String) (ctx : Ctx)
    (default : PyVal) (validator : Option (PyVal → Except PyExc PyVal))
    (h : Handler) : Except PyExc PyVal × Handler :=
  match validator with
  | Option.none => (.ok processed, h)
  | Option.some vf =>
    match vf processed with
    | .ok r =>
      if pyToBool r then (.ok processed, h)
      else
        (.ok default,
         log_warning s!"\x27{name}\x27 failed validation. Using default." ctx h)
    | .error e =>
      let em := e.msg
      (.ok default,
       log_warning s!"Validator for \x27{name}\x27 raised an exception: {em}. Using default."
         (ctxSet ctx "error_details" (.str em)) h)

/-- `ensure_object` (validation.py lines 222-354), translated clause by
clause: the `None` handling (lines 279-291), the outer `isinstance` check
(line 294, not inside a try: its `TypeError` propagates), the converter try
block (lines 299-316, whose `except Exception` also catches the inner
`isinstance` error), the tuple loop (317-329; with an empty tuple the loop
body never runs, so the original object survives in `processed_object` as in
the source), the single-type default conversion with its truthiness test
`if not processed_object` (330-336), and the validator stage (338-354). -/
def ensure_object (obj : PyVal) (name : String) (expected_type : TypeSpec)
    (default : PyVal) (context : Option Ctx) (allow_none : Bool)
    (validator : Option (PyVal → Except PyExc PyVal))
    (converter : Option (PyVal → Except PyExc PyVal))
    (h : Handler) : Except PyExc PyVal × Handler :=
  let en := displaySpec expected_type
  let ctx := ctxSets (context.getD [])
    [("param_name", .str name), ("object_attempted", obj),
     ("actual_type", .str (typeName (typeOf obj))), ("expected_type", .str en)]
  if isNoneVal obj then
    if none_allowed expected_type allow_none then (.ok .none, h)
    else
      (.ok default,
       log_warning
         s!"\x27{name}\x27 is None and not allowed for expected type(s) {en}. Using default."
         ctx h)
  else
    match isinstanceSpec obj expected_type with
    | .error e => (.error e, h)
    | .ok true => ensure_object_finish obj name ctx default validator h
    | .ok false =>
      let h1 := log_warning
        s!"\x27{name}\x27 is not of expected type(s) {en}. Attempting conversion." ctx h
      match converter with
      | Option.some f =>
        match f obj with
        | .error e =>
          let em := e.msg
          (.ok default,
           log_warning s!"Conversion of \x27{name}\x27 failed: {em}. Using default."
             (ctxSet ctx "error_details" (.str em)) h1)
        | .ok p =>
          match isinstanceSpec p expected_type with
          | .error e =>
            let em := e.msg
            (.ok default,
             log_warning s!"Conversion of \x27{name}\x27 failed: {em}. Using default."
               (ctxSet ctx "error_details" (.str em)) h1)
          | .ok true => ensure_object_finish p name ctx default validator h1
          | .ok false =>
            let pn := typeName (typeOf p)
            (.ok default,
             log_warning
               s!"Converter for \x27{name}\x27 returned wrong type. Expected {en}, got {pn}. Using default."
               ctx h1)
      | Option.none =>
        match expected_type with
        | .tup [] => ensure_object_finish obj name ctx default validator h1
        | .tup es =>
          match ensure_object_tuple_loop obj name ctx es h1 with
          | (.error e, h2) => (.error e, h2)
          | (.ok Option.none, h2) =>
            (.ok default,
             log_warning
               s!"No converter provided and cannot perform default conversion for \x27{name}\x27. Using default."
               ctx h2)
          | (.ok (Option.some v), h2) => ensure_object_finish v name ctx default validator h2
        | .one e =>
          match _attempt_default_conversion obj e name ctx h1 with
          | (.error ex, h2) => (.error ex, h2)
          | (.ok Option.none, h2) => (.ok default, h2)
          | (.ok (Option.some v), h2) =>
            if pyToBool v then ensure_object_finish v name ctx default validator h2
            else (.ok default, h2)

/-- The integer payload of an int-instance (Python bools count 0/1); only
consulted after an `isinstance(obj, int)` guard, as in the source. -/
def intValue : PyVal → Int
  | .int n => n
  | .bool b => if b then 1 else 0
  | _ => 0

/-- `ensure_non_negative_int` (validation.py lines 397-434): an int instance
(bools included) that is not negative is returned unchanged; otherwise a
warning is logged and `max(0, int(obj) if isinstance(obj, (int, float)) else
default)` is returned.  The `int(obj)` call there is not inside a try block,
so the exceptions `int()` raises on `nan`/`inf` propagate, as in the source. -/
def ensure_non_negative_int (obj : PyVal) (name : String) (default : Int)
    (context : Option Ctx) (h : Handler) : Except PyExc PyVal × Handler :=
  if isInst obj .tInt && decide (0 ≤ intValue obj) then (.ok obj, h)
  else
    let ov := pyStr obj
    let msg := s!"{name} must be non-negative integer, got: {ov}, correcting to {default}"
    let ctx := ctxSets (context.getD [])
      [("param_name", .str name), ("object_attempted", obj),
       ("actual_type", .str (typeName (typeOf obj))), ("expected_type", .str "int"),
       ("default_object_used", .int default)]
    let h1 := log_warning msg ctx h
    if isInst obj .tInt || isInst obj .tFloat then
      match pyToInt obj with
      | .ok n => (.ok (.int (max 0 n)), h1)
      | .error e => (.error e, h1)
    else (.ok (.int (max 0 default)), h1)

/-- `ensure_int_in_range` (validation.py lines 437-504): an int instance
within the bounds is returned unchanged; otherwise a warning is logged and
`int(obj) if isinstance(obj, (int, float)) else default` is clamped to the
bounds; the surrounding try catches only `(ValueError, TypeError)` (returning
the default unclamped), so the `OverflowError` from `int(float("inf"))`
propagates, as in the source. -/
def ensure_int_in_range (obj : PyVal) (name : String) (min_val : Int)
    (max_val : Option Int) (default : Option Int) (context : Option Ctx)
    (h : Handler) : Except PyExc PyVal × Handler :=
  let dflt := default.getD min_val
  let withinMax : Bool :=
    match max_val with
    | Option.some m => decide (intValue obj ≤ m)
    | Option.none => true
  if isInst obj .tInt && decide (min_val ≤ intValue obj) && withinMax then (.ok obj, h)
  else
    let range_desc :=
      match max_val with
      | Option.none => s!">= {min_val}"
      | Option.some m => s!"between {min_val} and {m}"
    let ov := pyStr obj
    let msg := s!"{name} must be integer {range_desc}, got: {ov}, correcting to {dflt}"
    let ctx := ctxSets (context.getD [])
      [("param_name", .str name), ("object_attempted", obj),
       ("actual_type", .str (typeName (typeOf obj))), ("expected_type", .str "int"),
       ("min_val", .int min_val),
       ("max_val", match max_val with | Option.some m => .int m | Option.none => .none),
       ("default_object_used", .int dflt)]
    let h1 := log_warning msg ctx h
    let clamp : Int → Except PyExc PyVal × Handler := fun c =>
      if c < min_val then (.ok (.int min_val), h1)
      else
        match max_val with
        | Option.some m => if c > m then (.ok (.int m), h1) else (.ok (.int c), h1)
        | Option.none => (.ok (.int c), h1)
    if isInst obj .tInt || isInst obj .tFloat then
      match pyToInt obj with
      | .ok c => clamp c
      | .error e => if catchesValueType e then (.ok (.int dflt), h1) else (.error e, h1)
    else clamp dflt

/-- Whether a value is a `list` instance (`isinstance(values, list)`). -/
def isListVal : PyVal → Bool
  | .list _ => true
  | _ => false

/-- The per-item loop of `ensure_list_of_type` (validation.py lines 576-621).
A correct-type item goes through the validator directly (that validator call,
line 579, is not inside a try: a raising validator propagates); a wrong-type
item goes through `ensure_object` with `default=None`, and the result is
appended when it `is not None` or when `allow_none` holds (so a failed
conversion under `allow_none=True` appends `None`), otherwise the item is
skipped with a warning. -/
def ensure_list_go (name : String) (expected_type : TypeSpec) (ctx : Ctx)
    (allow_none : Bool) (validator : Option (PyVal → Except PyExc PyVal))
    (converter : Option (PyVal → Except PyExc PyVal)) :
    List PyVal → Nat → Handler → Except PyExc (List PyVal) × Handler
  | [], _, h => (.ok [], h)
  | item :: rest, i, h =>
    let step : Except PyExc (Option PyVal) × Handler :=
      match isinstanceSpec item expected_type with
      | .error e => (.error e, h)
      | .ok true =>
        match validator with
        | Option.some vf =>
          match vf item with
          | .error e => (.error e, h)
          | .ok r =>
            if pyToBool r then (.ok (Option.some item), h)
            else
              let iv := pyStr item
              (.ok Option.none,
               log_warning s!"{name}[{i}] failed validation, skipping item: {iv}"
                 (ctxSets ctx
                   [("index", .int (i : Int)), ("object_attempted", item),
                    ("error_details", .str "Item failed validation")]) h)
        | Option.none => (.ok (Option.some item), h)
      | .ok false =>
        let item_ctx := ctxSets ctx [("index", .int (i : Int)), ("object_attempted", item)]
        match ensure_object item s!"{name}[{i}]" expected_type .none
            (Option.some item_ctx) allow_none validator converter h with
        | (.error e, h1) => (.error e, h1)
        | (.ok converted, h1) =>
          if !(isNoneVal converted) || allow_none then (.ok (Option.some converted), h1)
          else
            let iv := pyStr item
            (.ok Option.none,
             log_warning s!"{name}[{i}] failed validation, skipping item: {iv}"
               (ctxSets ctx
                 [("index", .int (i : Int)), ("object_attempted", item),
                  ("error_details", .str "Item failed validation and could not be converted")]) h1)
    match step with
    | (.error e, h1) => (.error e, h1)
    | (.ok kept, h1) =>
      match ensure_list_go name expected_type ctx allow_none validator converter rest (i + 1) h1 with
      | (.error e, h2) => (.error e, h2)
      | (.ok tail, h2) =>
        match kept with
        | Option.some v => (.ok (v :: tail), h2)
        | Option.none => (.ok tail, h2)

/-- `ensure_list_of_type` (validation.py lines 507-622): a non-list input
logs a warning and returns the default list (empty when absent); a list input
is rebuilt item by item by `ensure_list_go`. -/
def ensure_list_of_type (values : PyVal) (name : String)
    (expected_type : TypeSpec) (default : Option (List PyVal))
    (context : Option Ctx) (allow_none : Bool)
    (validator : Option (PyVal → Except PyExc PyVal))
    (converter : Option (PyVal → Except PyExc PyVal))
    (h : Handler) : Except PyExc (List PyVal) × Handler :=
  let dflt := default.getD []
  match values with
  | .list xs =>
    let ctx := ctxSets (context.getD [])
      [("param_name", .str name), ("object_attempted", values),
       ("actual_type", .str (typeName (typeOf values))),
       ("expected_type", .str (displaySpec expected_type))]
    ensure_list_go name expected_type ctx allow_none validator converter xs 0 h
  | _ =>
    let tn := typeName (typeOf values)
    (.ok dflt,
     log_warning s!"{name} should be list, got: {tn}, using default"
       (ctxSets (context.getD [])
         [("param_name", .str name), ("object_attempted", values),
          ("actual_type", .str tn), ("expected_type", .str "list"),
          ("default_object_used", .list dflt)]) h)

/-- `safe_get_attribute` (validation.py lines 625-659): a `None` object
returns the default silently; an object with the attribute returns it; an
object without it logs a warning (note: with a context built from scratch,
no caller context parameter exists) and returns the default. -/
def safe_get_attribute (obj : PyVal) (name : String) (default : PyVal)
    (h : Handler) : PyVal × Handler :=
  if isNoneVal obj then (default, h)
  else if pyHasattr obj name then (pyGetattr obj name default, h)
  else
    let tn := typeName (typeOf obj)
    let dv := pyStr default
    (default,
     log_warning s!"{tn} missing attribute \x27{name}\x27, using default: {dv}"
       [("param_name", .str name), ("object_attempted", obj),
        ("actual_type", .str tn), ("default_object_used", default),
        ("error_details", .str s!"Missing attribute \x27{name}\x27")] h)

-- ===========================================================================
-- Helper lemmas
-- ===========================================================================

/-- Every `log_warning` call adds exactly one record to the handler,
captured or written. -/
theorem recCount_log_warning (m : String) (c : Ctx) (h : Handler) :
    recCount (log_warning m c h) = recCount h + 1 := by
  obtain ⟨cs, sink⟩ := h
  cases cs <;> simp [log_warning, handle, recCount] <;> omega

-- ===========================================================================
-- Claim theorems
-- ===========================================================================

/-- C3: the claim says `ensure_non_negative_int` never propagates an
exception (and its docstring promises a warning plus a default/corrected
value for everything that cannot be converted).  Evaluating the embedded
code at the failing input `float("nan")` shows the call instead propagates
the `ValueError` that `int(nan)` raises, because the `int(obj)` call on
line 433 of validation.py is not guarded by any try block. -/
theorem c3_ensure_non_negative_int_nan_raises :
    (ensure_non_negative_int (.float .nan) "count" 0 Option.none ⟨[], []⟩).1 =
      .error ⟨.valueError, "cannot convert float NaN to integer"⟩ := by
  rfl

/-- C4: the claim says `ensure_int_in_range` returns, without raising, an
integer within the bounds (and its docstring promises correction to
`min_val`, `max_val` or the default).  Evaluating the embedded code at the
failing input `float("inf")` shows the call instead propagates the
`OverflowError` that `int(inf)` raises, because the except clause on line
502 of validation.py catches only `(ValueError, TypeError)`. -/
theorem c4_ensure_int_in_range_inf_raises :
    (ensure_int_in_range (.float .inf) "n" 0 (Option.some 10) Option.none
        Option.none ⟨[], []⟩).1 =
      .error ⟨.overflowError, "cannot convert float infinity to integer"⟩ := by
  rfl

/-- C6: `safe_execute` invokes the callable and returns its result on
success; on any raised error it calls `handle` with the caught exception and
`raise_exception=False` and returns the caller-supplied default; the failure
is never propagated (the return type of the model is already total).
The operation is modelled from the spec: error_handler.py is not among the
repository sources. -/
theorem c6_safe_execute_never_propagates :
    ∀ (f : Handler → Except PyExc PyVal × Handler) (d : PyVal) (m : String)
      (sev : ErrorSeverity) (c : Ctx) (h : Handler) (v : PyVal) (e : PyExc)
      (h1 : Handler),
    (f h = (.ok v, h1) → safe_execute f d m sev c h = (v, h1)) ∧
    (f h = (.error e, h1) →
      safe_execute f d m sev c h =
        (d, (handle m sev c (Option.some e) false h1).1)) := by
  intro f d m sev c h v e h1
  constructor <;> intro hf <;> simp [safe_execute, hf]

/-- Witness for C6: a callable that raises `ValueError("boom")` makes
`safe_execute` return the default and feed the exception to `handle`. -/
theorem c6_safe_execute_never_propagates_witness :
    safe_execute (fun h => (.error ⟨.valueError, "boom"⟩, h)) (.int 1) "m"
        .MEDIUM [] ⟨[], []⟩ =
      (.int 1, (handle "m" .MEDIUM [] (Option.some ⟨.valueError, "boom"⟩) false
        ⟨[], []⟩).1) :=
  (c6_safe_execute_never_propagates (fun h => (.error ⟨.valueError, "boom"⟩, h))
    (.int 1) "m" .MEDIUM [] ⟨[], []⟩ .none ⟨.valueError, "boom"⟩ ⟨[], []⟩).2 rfl

/-- C7: `safe_get_attribute(obj, name, default)` returns `getattr(obj,
name)` when the object is not `None` and has the attribute, and the default
otherwise (object `None`, or attribute absent); the embedding is total, so
no exception is propagated. -/
theorem c7_safe_get_attribute_result :
    ∀ (obj : PyVal) (name : String) (default : PyVal) (h : Handler),
    (isNoneVal obj = true → safe_get_attribute obj name default h = (default, h)) ∧
    (isNoneVal obj = false → pyHasattr obj name = true →
      safe_get_attribute obj name default h = (pyGetattr obj name default, h)) ∧
    (isNoneVal obj = false → pyHasattr obj name = false →
      (safe_get_attribute obj name default h).1 = default) := by
  intro obj name d h
  refine ⟨fun h1 => ?_, fun h1 h2 => ?_, fun h1 h2 => ?_⟩
  · simp [safe_get_attribute, h1]
  · simp [safe_get_attribute, h1, h2]
  · simp [safe_get_attribute, h1, h2]

/-- Witness for C7 at concrete inputs: a `None` object, an object carrying
the attribute, and an int lacking it. -/
theorem c7_safe_get_attribute_result_witness :
    safe_get_attribute .none "a" (.int 0) ⟨[], []⟩ = (.int 0, ⟨[], []⟩) ∧
    safe_get_attribute (.obj "C" [("a", .int 4)]) "a" (.int 0) ⟨[], []⟩ =
      (pyGetattr (.obj "C" [("a", .int 4)]) "a" (.int 0), ⟨[], []⟩) ∧
    (safe_get_attribute (.int 3) "a" (.int 0) ⟨[], []⟩).1 = .int 0 :=
  ⟨(c7_safe_get_attribute_result .none "a" (.int 0) ⟨[], []⟩).1 rfl,
   (c7_safe_get_attribute_result (.obj "C" [("a", .int 4)]) "a" (.int 0)
      ⟨[], []⟩).2.1 rfl rfl,
   (c7_safe_get_attribute_result (.int 3) "a" (.int 0) ⟨[], []⟩).2.2 rfl rfl⟩

/-- C10: `safe_get_attribute(None, name, default)` returns the default
silently, leaving the handler untouched; the handler receives exactly one
warning record precisely when the object is not `None` and lacks the
attribute, and nothing in every other case. -/
theorem c10_safe_get_attribute_none_silent :
    ∀ (obj : PyVal) (name : String) (default : PyVal) (h : Handler),
    safe_get_attribute .none name default h = (default, h) ∧
    recCount (safe_get_attribute obj name default h).2 =
      recCount h +
        (if isNoneVal obj = false ∧ pyHasattr obj name = false then 1 else 0) := by
  intro obj name d h
  constructor
  · simp [safe_get_attribute, isNoneVal]
  · by_cases h1 : isNoneVal obj = true
    · simp [safe_get_attribute, h1]
    · have h1f : isNoneVal obj = false := by simpa using h1
      by_cases h2 : pyHasattr obj name = true
      · simp [safe_get_attribute, h1f, h2]
      · have h2f : pyHasattr obj name = false := by simpa using h2
        simp [safe_get_attribute, h1f, h2f, recCount_log_warning]

/-- C1: with no capture scope active on the default handler, a `None` object
makes `validate_object` raise through `handle(..., raise_exception=True)` (a
generic `Exception` carrying the presence message, written to the sink as one
more record) instead of returning; a non-`None` object of the wrong class
makes `validate_type` surface the `ValueError` carrying the mismatch message;
and when all checks pass (object present, required attributes present, class
matches) both functions return the object unchanged. -/
theorem c1_validate_presence_and_type :
    ∀ (name : String) (ctxOpt : Option Ctx) (attrs : Option (List String))
      (attrList : List String) (obj : PyVal) (t : PyType) (h : Handler),
      h.captures = [] →
    ((validate_object .none name ctxOpt attrs h).1 =
        .error ⟨.baseException, validate_none_message name⟩ ∧
      (validate_object .none name ctxOpt attrs h).2.sink.length =
        h.sink.length + 1) ∧
    (isNoneVal obj = false → isInst obj t = false →
      (validate_type obj name (.one (.ty t)) ctxOpt h).1 =
        .error ⟨.valueError, type_mismatch_message name (.one (.ty t)) obj⟩) ∧
    (isNoneVal obj = false →
      (validate_object obj name ctxOpt Option.none h).1 = .ok obj) ∧
    (isNoneVal obj = false → (∀ a ∈ attrList, pyHasattr obj a = true) →
      (validate_object obj name ctxOpt (Option.some attrList) h).1 = .ok obj) ∧
    (isNoneVal obj = false → isInst obj t = true →
      (validate_type obj name (.one (.ty t)) ctxOpt h).1 = .ok obj) := by
  intro name ctxOpt attrs attrList obj t h hcap
  obtain ⟨cs, sink⟩ := h
  simp only [Handler.captures] at hcap
  subst hcap
  refine ⟨?_, fun h1 h2 => ?_, fun h1 => ?_, fun h1 h2 => ?_, fun h1 h2 => ?_⟩
  · simp [validate_object, handle, isNoneVal]
  · simp [validate_type, validate_object, validate_object_rest, h1,
      isinstanceSpec, h2, handle]
  · simp [validate_object, validate_object_rest, h1]
  · have hm : attrList.filter (fun a => !(pyHasattr obj a)) = [] := by
      simp only [List.filter_eq_nil_iff]
      intro a ha
      simp [h2 a ha]
    simp [validate_object, validate_object_rest, h1, hm]
  · simp [validate_type, validate_object, validate_object_rest, h1,
      isinstanceSpec, h2]

/-- Witness for C1 at concrete inputs: the `None` object raises the presence
error; the int 3 fails a string check with a `ValueError`; and the int 3
passes its checks (no attributes, all attributes of an object present, int
check) unchanged. -/
theorem c1_validate_presence_and_type_witness :
    ((validate_object .none "x" Option.none Option.none ⟨[], []⟩).1 =
        .error ⟨.baseException, validate_none_message "x"⟩ ∧
      (validate_object .none "x" Option.none Option.none ⟨[], []⟩).2.sink.length =
        ([] : List ErrorRecord).length + 1) ∧
    (validate_type (.int 3) "x" (.one (.ty .tStr)) Option.none ⟨[], []⟩).1 =
      .error ⟨.valueError, type_mismatch_message "x" (.one (.ty .tStr)) (.int 3)⟩ ∧
    (validate_object (.int 3) "x" Option.none Option.none ⟨[], []⟩).1 = .ok (.int 3) ∧
    (validate_object (.obj "C" [("a", .int 1)]) "x" Option.none
        (Option.some ["a"]) ⟨[], []⟩).1 = .ok (.obj "C" [("a", .int 1)]) ∧
    (validate_type (.int 3) "x" (.one (.ty .tInt)) Option.none ⟨[], []⟩).1 =
      .ok (.int 3) := by
  have w1 := c1_validate_presence_and_type "x" Option.none Option.none []
    (.int 3) .tStr ⟨[], []⟩ rfl
  have w2 := c1_validate_presence_and_type "x" Option.none Option.none ["a"]
    (.obj "C" [("a", .int 1)]) .tInt ⟨[], []⟩ rfl
  have w3 := c1_validate_presence_and_type "x" Option.none Option.none []
    (.int 3) .tInt ⟨[], []⟩ rfl
  exact ⟨w1.1, w1.2.1 rfl rfl, w1.2.2.1 rfl,
    w2.2.2.2.1 rfl (by intro a ha; simp at ha; subst ha; rfl),
    w3.2.2.2.2 rfl rfl⟩

/-- C9: a call to `ensure_object` with a `None` object returns `None` as a
valid value, with no warning, exactly when `allow_none` holds and the
expected type is `type(None)` itself or a tuple containing the value `None`
(`none_allowed`); in every other case a warning is logged (one more record
on the handler) and the caller-supplied default is returned. -/
theorem c9_ensure_object_none_handling :
    ∀ (name : String) (spec : TypeSpec) (default : PyVal) (ctxOpt : Option Ctx)
      (an : Bool) (vdt cvt : Option (PyVal → Except PyExc PyVal)) (h : Handler),
    (none_allowed spec an = true →
      ensure_object .none name spec default ctxOpt an vdt cvt h = (.ok .none, h)) ∧
    (none_allowed spec an = false →
      (ensure_object .none name spec default ctxOpt an vdt cvt h).1 = .ok default ∧
      recCount (ensure_object .none name spec default ctxOpt an vdt cvt h).2 =
        recCount h + 1) := by
  intro name spec d ctxOpt an vdt cvt h
  constructor <;> intro hc <;>
    simp [ensure_object, isNoneVal, hc, recCount_log_warning]

/-- Witness for C9: with `allow_none=True` and expected types `(int, None)`,
a `None` object is returned as valid and the handler is untouched; with
expected type `int` alone (still `allow_none=True`) the default 9 is
returned and one warning is recorded. -/
theorem c9_ensure_object_none_handling_witness :
    ensure_object .none "n" (.tup [.ty .tInt, .noneLit]) (.int 9) Option.none
        true Option.none Option.none ⟨[], []⟩ = (.ok .none, ⟨[], []⟩) ∧
    ((ensure_object .none "n" (.one (.ty .tInt)) (.int 9) Option.none true
        Option.none Option.none ⟨[], []⟩).1 = .ok (.int 9) ∧
      recCount (ensure_object .none "n" (.one (.ty .tInt)) (.int 9) Option.none
        true Option.none Option.none ⟨[], []⟩).2 = recCount ⟨[], []⟩ + 1) :=
  ⟨(c9_ensure_object_none_handling "n" (.tup [.ty .tInt, .noneLit]) (.int 9)
      Option.none true Option.none Option.none ⟨[], []⟩).1 rfl,
   (c9_ensure_object_none_handling "n" (.one (.ty .tInt)) (.int 9)
      Option.none true Option.none Option.none ⟨[], []⟩).2 rfl⟩

/-- Counterexample for C2: for `ensure_object("0", "n", int, default=5)` the
built-in default conversion succeeds and produces `int("0") = 0`, a value of
the expected type, yet the function returns the caller-supplied default 5:
the source tests the converted value with `if not processed_object:` (line
335), which discards every falsy converted value.  This refutes both halves
of the claim: the converted value is not returned, and the default is
returned although the mismatch was recoverable. -/
theorem c2_default_conversion_falsy_counterexample :
    (ensure_object (.str "0") "n" (.one (.ty .tInt)) (.int 5) Option.none
        false Option.none Option.none ⟨[], []⟩).1 = .ok (.int 5) ∧
    attempt_default_conversion_val (.str "0") (.ty .tInt) =
      .ok (Option.some (.int 0)) := by
  constructor <;> rfl

/-- C2 (amended): with no validator supplied and a non-`None` object that is
not an instance of the expected type, (a) a caller-supplied converter whose
result is of the expected type has that result returned; with no converter
and a single expected type, (b) a successful built-in default conversion is
returned when the converted value is truthy, but (c) a falsy converted value
(0, 0.0, False, "") is discarded by the `if not processed_object:` test and
the caller-supplied default is returned instead. -/
theorem c2_ensure_object_conversion_amended :
    (∀ (obj : PyVal) (name : String) (spec : TypeSpec) (default : PyVal)
       (ctxOpt : Option Ctx) (an : Bool) (f : PyVal → Except PyExc PyVal)
       (v : PyVal) (h : Handler),
      isNoneVal obj = false → isinstanceSpec obj spec = .ok false →
      f obj = .ok v → isinstanceSpec v spec = .ok true →
      (ensure_object obj name spec default ctxOpt an Option.none
        (Option.some f) h).1 = .ok v) ∧
    (∀ (obj : PyVal) (name : String) (t : PyType) (default : PyVal)
       (ctxOpt : Option Ctx) (an : Bool) (w : PyVal) (h : Handler),
      isNoneVal obj = false → isInst obj t = false →
      attempt_default_conversion_val obj (.ty t) = .ok (Option.some w) →
      pyToBool w = true →
      (ensure_object obj name (.one (.ty t)) default ctxOpt an Option.none
        Option.none h).1 = .ok w) ∧
    (∀ (obj : PyVal) (name : String) (t : PyType) (default : PyVal)
       (ctxOpt : Option Ctx) (an : Bool) (w : PyVal) (h : Handler),
      isNoneVal obj = false → isInst obj t = false →
      attempt_default_conversion_val obj (.ty t) = .ok (Option.some w) →
      pyToBool w = false →
      (ensure_object obj name (.one (.ty t)) default ctxOpt an Option.none
        Option.none h).1 = .ok default) := by
  refine ⟨?_, ?_, ?_⟩
  · intro obj name spec d ctxOpt an f v h h1 h2 h3 h4
    simp [ensure_object, h1, h2, h3, h4, ensure_object_finish]
  · intro obj name t d ctxOpt an w h h1 h2 h3 h4
    simp [ensure_object, h1, isinstanceSpec, h2, _attempt_default_conversion,
      h3, h4, ensure_object_finish]
  · intro obj name t d ctxOpt an w h h1 h2 h3 h4
    simp [ensure_object, h1, isinstanceSpec, h2, _attempt_default_conversion,
      h3, h4, ensure_object_finish]

/-- Witness for C2 (amended) at concrete inputs: a converter turning "x"
into 3 has its result returned; the default conversion of "7" to 7 (truthy)
is returned; the default conversion of "0" to 0 (falsy) yields the default. -/
theorem c2_ensure_object_conversion_amended_witness :
    (ensure_object (.str "x") "n" (.one (.ty .tInt)) (.int 5) Option.none
        false Option.none (Option.some (fun _ => .ok (.int 3))) ⟨[], []⟩).1 =
      .ok (.int 3) ∧
    (ensure_object (.str "7") "n" (.one (.ty .tInt)) (.int 5) Option.none
        false Option.none Option.none ⟨[], []⟩).1 = .ok (.int 7) ∧
    (ensure_object (.str "0") "m" (.one (.ty .tInt)) (.int 5) Option.none
        false Option.none Option.none ⟨[], []⟩).1 = .ok (.int 5) :=
  ⟨c2_ensure_object_conversion_amended.1 (.str "x") "n" (.one (.ty .tInt))
      (.int 5) Option.none false (fun _ => .ok (.int 3)) (.int 3) ⟨[], []⟩
      rfl rfl rfl rfl,
   c2_ensure_object_conversion_amended.2.1 (.str "7") "n" .tInt (.int 5)
      Option.none false (.int 7) ⟨[], []⟩ rfl rfl rfl rfl,
   c2_ensure_object_conversion_amended.2.2 (.str "0") "m" .tInt (.int 5)
      Option.none false (.int 0) ⟨[], []⟩ rfl rfl rfl rfl⟩

/-- A successful built-in default conversion produces an instance of the
target class. -/
theorem attempt_val_instance (obj : PyVal) (t : TypeElem) (w : PyVal)
    (hw : attempt_default_conversion_val obj t = .ok (Option.some w)) :
    ∃ pt, t = .ty pt ∧ isInst w pt = true := by
  cases t with
  | noneLit => simp [attempt_default_conversion_val] at hw
  | ty pt =>
    refine ⟨pt, rfl, ?_⟩
    cases pt with
    | tNone => simp [attempt_default_conversion_val] at hw
    | tList => simp [attempt_default_conversion_val] at hw
    | tObjClass c => simp [attempt_default_conversion_val] at hw
    | tStr =>
      simp only [attempt_default_conversion_val] at hw
      split at hw
      · simp only [Except.ok.injEq, Option.some.injEq] at hw
        subst hw
        rfl
      · simp at hw
    | tBool =>
      simp only [attempt_default_conversion_val] at hw
      split at hw
      · simp only [Except.ok.injEq, Option.some.injEq] at hw
        subst hw
        rfl
      · simp at hw
    | tInt =>
      simp only [attempt_default_conversion_val] at hw
      split at hw
      · cases he : pyToInt obj with
        | ok n =>
          rw [he] at hw
          simp only [Except.map, Except.ok.injEq, Option.some.injEq] at hw
          subst hw
          rfl
        | error e => rw [he] at hw; simp [Except.map] at hw
      · simp at hw
    | tFloat =>
      simp only [attempt_default_conversion_val] at hw
      split at hw
      · cases he : pyToFloat obj with
        | ok f =>
          rw [he] at hw
          simp only [Except.map, Except.ok.injEq, Option.some.injEq] at hw
          subst hw
          rfl
        | error e => rw [he] at hw; simp [Except.map] at hw
      · simp at hw

/-- A tuple `isinstance` that returns `False` traversed the whole tuple, so
the tuple holds no `None` entry (one would have raised `TypeError`). -/
theorem isinstanceElems_false_no_none (v : PyVal) (es : List TypeElem)
    (hf : isinstanceElems v es = .ok false) : TypeElem.noneLit ∉ es := by
  induction es with
  | nil => simp
  | cons e rest ih =>
    cases e with
    | noneLit => simp [isinstanceElems] at hf
    | ty t =>
      simp only [isinstanceElems] at hf
      split at hf
      · simp at hf
      · simp [ih hf]

/-- Membership of a matching class in a `None`-free tuple makes the tuple
`isinstance` succeed. -/
theorem isinstanceElems_mem_true (w : PyVal) (es : List TypeElem) (pt : PyType)
    (hmem : TypeElem.ty pt ∈ es) (hinst : isInst w pt = true)
    (hnone : TypeElem.noneLit ∉ es) : isinstanceElems w es = .ok true := by
  induction es with
  | nil => simp at hmem
  | cons e rest ih =>
    cases e with
    | noneLit => simp at hnone
    | ty t =>
      by_cases hit : isInst w t = true
      · simp [isinstanceElems, hit]
      · have hitf : isInst w t = false := by simpa using hit
        rcases List.mem_cons.mp hmem with h1 | h1
        · exfalso
          have hpt : pt = t := by injection h1
          subst hpt
          exact hit hinst
        · have hr : TypeElem.noneLit ∉ rest := by
            intro hx
            exact hnone (List.mem_cons_of_mem _ hx)
          simp [isinstanceElems, hitf, ih h1 hr]

/-- The validator stage returns either the processed object or the default. -/
theorem ensure_object_finish_cases (p : PyVal) (name : String) (ctx : Ctx)
    (d : PyVal) (vdt : Option (PyVal → Except PyExc PyVal)) (h : Handler)
    (v : PyVal) (h1 : Handler)
    (hres : ensure_object_finish p name ctx d vdt h = (.ok v, h1)) :
    v = p ∨ v = d := by
  cases vdt with
  | none =>
    simp only [ensure_object_finish, Prod.mk.injEq, Except.ok.injEq] at hres
    exact Or.inl hres.1.symm
  | some vf =>
    simp only [ensure_object_finish] at hres
    split at hres
    · split at hres
      · injection hres with hfst hsnd
        injection hfst with hv
        exact Or.inl hv.symm
      · injection hres with hfst hsnd
        injection hfst with hv
        exact Or.inr hv.symm
    · injection hres with hfst hsnd
      injection hfst with hv
      exact Or.inr hv.symm

/-- A non-`None` value coming out of the tuple-conversion loop was produced
by the built-in conversion on one of the tuple elements. -/
theorem tuple_loop_some (obj : PyVal) (name : String) (ctx : Ctx)
    (es : List TypeElem) (h : Handler) (w : PyVal) (h1 : Handler)
    (hres : ensure_object_tuple_loop obj name ctx es h =
      (.ok (Option.some w), h1)) :
    ∃ t ∈ es, attempt_default_conversion_val obj t = .ok (Option.some w) := by
  induction es generalizing h with
  | nil => simp [ensure_object_tuple_loop] at hres
  | cons t ts ih =>
    cases hval : attempt_default_conversion_val obj t with
    | ok r =>
      cases r with
      | some v2 =>
        simp only [ensure_object_tuple_loop, _attempt_default_conversion,
          hval, Prod.mk.injEq, Except.ok.injEq, Option.some.injEq] at hres
        exact ⟨t, by simp, by rw [hval, hres.1]⟩
      | none =>
        simp only [ensure_object_tuple_loop, _attempt_default_conversion,
          hval] at hres
        obtain ⟨t2, hm, hc⟩ := ih h hres
        exact ⟨t2, List.mem_cons_of_mem _ hm, hc⟩
    | error e =>
      by_cases hc : catchesValueType e = true
      · simp only [ensure_object_tuple_loop, _attempt_default_conversion,
          hval, hc, if_true] at hres
        obtain ⟨t2, hm, hc2⟩ := ih _ hres
        exact ⟨t2, List.mem_cons_of_mem _ hm, hc2⟩
      · have hcf : catchesValueType e = false := by simpa using hc
        simp [ensure_object_tuple_loop, _attempt_default_conversion,
          hval, hcf] at hres

/-- A conversion wrapper that hands back a non-`None` value did so from a
successful pure conversion. -/
theorem attempt_conversion_some (obj : PyVal) (t : TypeElem) (name : String)
    (ctx : Ctx) (h : Handler) (w : PyVal) (h2 : Handler)
    (hx : _attempt_default_conversion obj t name ctx h =
      (.ok (Option.some w), h2)) :
    attempt_default_conversion_val obj t = .ok (Option.some w) := by
  cases hval : attempt_default_conversion_val obj t with
  | ok r =>
    simp only [_attempt_default_conversion, hval, Prod.mk.injEq,
      Except.ok.injEq] at hx
    rw [hx.1]
  | error e =>
    by_cases hc : catchesValueType e = true
    · simp [_attempt_default_conversion, hval, hc] at hx
    · have hcf : catchesValueType e = false := by simpa using hc
      simp [_attempt_default_conversion, hval, hcf] at hx

/-- Soundness of `ensure_object` as `ensure_list_of_type` calls it (with
`default=None`): a normal return is an instance of the expected type or
`None`.  The empty expected-type tuple is excluded: there the source passes
the original, unconverted object through. -/
theorem ensure_object_sound (obj : PyVal) (name : String) (spec : TypeSpec)
    (ctxOpt : Option Ctx) (an : Bool)
    (vdt cvt : Option (PyVal → Except PyExc PyVal)) (h : Handler)
    (v : PyVal) (h1 : Handler) (hne : spec ≠ .tup [])
    (hres : ensure_object obj name spec .none ctxOpt an vdt cvt h = (.ok v, h1)) :
    isinstanceSpec v spec = .ok true ∨ v = .none := by
  by_cases hn : isNoneVal obj = true
  · right
    simp only [ensure_object, hn, if_true] at hres
    split at hres
    · injection hres with hfst hsnd
      injection hfst with hv
      exact hv.symm
    · injection hres with hfst hsnd
      injection hfst with hv
      exact hv.symm
  · have hnf : isNoneVal obj = false := by simpa using hn
    simp only [ensure_object, hnf, Bool.false_eq_true, if_false] at hres
    split at hres
    · injection hres with hfst hsnd
      exact Except.noConfusion hfst
    · rcases ensure_object_finish_cases _ _ _ _ _ _ _ _ hres with hv | hv
      · left
        rw [hv]
        rename_i heqTop
        exact heqTop
      · right
        exact hv
    · rename_i heqTop
      split at hres
      · -- converter branch
        split at hres
        · injection hres with hfst hsnd
          injection hfst with hv
          exact Or.inr hv.symm
        · split at hres
          · injection hres with hfst hsnd
            injection hfst with hv
            exact Or.inr hv.symm
          · rename_i p hps
            rcases ensure_object_finish_cases _ _ _ _ _ _ _ _ hres with hv | hv
            · left
              rw [hv]
              exact hps
            · right
              exact hv
          · injection hres with hfst hsnd
            injection hfst with hv
            exact Or.inr hv.symm
      · -- no converter: match on the expected-type shape
        split at hres
        · exact absurd rfl hne
        · -- nonempty tuple
          split at hres
          · injection hres with hfst hsnd
            exact Except.noConfusion hfst
          · injection hres with hfst hsnd
            injection hfst with hv
            exact Or.inr hv.symm
          · rename_i w h2 hloop
            rcases ensure_object_finish_cases _ _ _ _ _ _ _ _ hres with hv | hv
            · left
              rw [hv]
              obtain ⟨t2, hm, hcv⟩ := tuple_loop_some _ _ _ _ _ _ _ hloop
              obtain ⟨pt, rfl, hinst⟩ := attempt_val_instance _ _ _ hcv
              have hnonone := isinstanceElems_false_no_none obj _ heqTop
              exact isinstanceElems_mem_true w _ pt hm hinst hnonone
            · right
              exact hv
        · -- single expected type
          split at hres
          · injection hres with hfst hsnd
            exact Except.noConfusion hfst
          · injection hres with hfst hsnd
            injection hfst with hv
            exact Or.inr hv.symm
          · rename_i w h2 hconv
            split at hres
            · rcases ensure_object_finish_cases _ _ _ _ _ _ _ _ hres with hv | hv
              · left
                rw [hv]
                have hcv := attempt_conversion_some _ _ _ _ _ _ _ hconv
                obtain ⟨pt, rfl, hinst⟩ := attempt_val_instance _ _ _ hcv
                simp [isinstanceSpec, hinst]
              · right
                exact hv
            · injection hres with hfst hsnd
              injection hfst with hv
              exact Or.inr hv.symm

/-- Element soundness of the per-item loop of `ensure_list_of_type`: every
element of a normally returned list is an instance of the expected type, or
`None` under `allow_none=True` (the empty expected-type tuple excluded). -/
theorem ensure_list_go_sound (name : String) (spec : TypeSpec) (ctx : Ctx)
    (an : Bool) (vdt cvt : Option (PyVal → Except PyExc PyVal))
    (hne : spec ≠ .tup []) :
    ∀ (xs : List PyVal) (i : Nat) (h : Handler) (l : List PyVal) (h1 : Handler),
    ensure_list_go name spec ctx an vdt cvt xs i h = (.ok l, h1) →
    ∀ v ∈ l, isinstanceSpec v spec = .ok true ∨ (an = true ∧ v = .none) := by
  intro xs
  induction xs with
  | nil =>
    intro i h l h1 hres v hv
    simp only [ensure_list_go, Prod.mk.injEq, Except.ok.injEq] at hres
    rw [← hres.1] at hv
    simp at hv
  | cons item rest ih =>
    intro i h l h1 hres v hv
    simp only [ensure_list_go] at hres
    split at hres
    · exact Except.noConfusion (congrArg Prod.fst hres)
    · rename_i kept h2 hstep
      split at hres
      · exact Except.noConfusion (congrArg Prod.fst hres)
      · rename_i tail h3 hrec
        -- hres : (match kept with ...) = (.ok l, h1)
        have hl : l = (match kept with
            | Option.some w => w :: tail
            | Option.none => tail) := by
          cases kept <;>
            simpa using (congrArg Prod.fst hres).symm
        -- every member of the tail is covered by the induction hypothesis
        have htail : ∀ u ∈ tail,
            isinstanceSpec u spec = .ok true ∨ (an = true ∧ u = .none) :=
          fun u hu => ih (i + 1) h2 tail h3 hrec u hu
        cases kept with
        | none =>
          rw [hl] at hv
          exact htail v hv
        | some w =>
          rw [hl] at hv
          rcases List.mem_cons.mp hv with rfl | hv2
          · -- the kept element comes from the step on `item`
            split at hstep
            · exact Except.noConfusion (congrArg Prod.fst hstep)
            · -- item was an instance of the expected type
              rename_i hinst
              split at hstep
              · split at hstep
                · exact Except.noConfusion (congrArg Prod.fst hstep)
                · split at hstep
                  · have hw : Option.some item = Option.some v := by
                      simpa using (congrArg Prod.fst hstep)
                    obtain rfl : item = v := by injection hw
                    exact Or.inl hinst
                  · have hw : (Option.none : Option PyVal) = Option.some v := by
                      simpa using (congrArg Prod.fst hstep)
                    exact Option.noConfusion hw
              · have hw : Option.some item = Option.some v := by
                  simpa using (congrArg Prod.fst hstep)
                obtain rfl : item = v := by injection hw
                exact Or.inl hinst
            · -- item went through ensure_object
              split at hstep
              · exact Except.noConfusion (congrArg Prod.fst hstep)
              · rename_i conv h4 hens
                split at hstep
                · rename_i hkeep
                  have hw : Option.some conv = Option.some v := by
                    simpa using (congrArg Prod.fst hstep)
                  obtain rfl : conv = v := by injection hw
                  rcases ensure_object_sound _ _ _ _ _ _ _ _ _ _ hne hens
                      with hok | hnone2
                  · exact Or.inl hok
                  · right
                    refine ⟨?_, hnone2⟩
                    subst hnone2
                    simpa [isNoneVal] using hkeep
                · have hw : (Option.none : Option PyVal) = Option.some v := by
                    simpa using (congrArg Prod.fst hstep)
                  exact Option.noConfusion hw
          · exact htail v hv2

/-- Counterexample for C5: `ensure_list_of_type(["abc"], "xs", int,
allow_none=True)` returns `[None]` — the item "abc" cannot be converted to
int, `ensure_object` hands back its `default=None`, and line 609 of
validation.py (`if converted is not None or allow_none:`) appends that
`None` to the cleaned list even though it is not an instance of `int`.
This refutes the claim that every element of the returned list is an
instance of the expected type. -/
theorem c5_allow_none_counterexample :
    (ensure_list_of_type (.list [.str "abc"]) "xs" (.one (.ty .tInt))
        Option.none Option.none true Option.none Option.none ⟨[], []⟩).1 =
      .ok [PyVal.none] ∧
    isinstanceSpec PyVal.none (.one (.ty .tInt)) = .ok false := by
  constructor <;> rfl

/-- C5 (amended): for a non-list input `ensure_list_of_type` returns the
default list; for a list input, every element of a normally returned list is
an instance of the expected type, except that `None` may appear when
`allow_none=True` (a failed conversion is then appended as `None` rather
than skipped).  The empty expected-type tuple is excluded: for it the source
passes wrong-typed items through unconverted. -/
theorem c5_ensure_list_elements_amended :
    ∀ (values : PyVal) (name : String) (spec : TypeSpec)
      (default : Option (List PyVal)) (ctxOpt : Option Ctx) (an : Bool)
      (vdt cvt : Option (PyVal → Except PyExc PyVal)) (h : Handler),
    spec ≠ .tup [] →
    (isListVal values = false →
      (ensure_list_of_type values name spec default ctxOpt an vdt cvt h).1 =
        .ok (default.getD [])) ∧
    (∀ (l : List PyVal) (h1 : Handler),
      ensure_list_of_type values name spec default ctxOpt an vdt cvt h =
        (.ok l, h1) →
      isListVal values = true →
      ∀ v ∈ l, isinstanceSpec v spec = .ok true ∨ (an = true ∧ v = .none)) := by
  intro values name spec dflt ctxOpt an vdt cvt h hne
  constructor
  · intro hnl
    cases values <;> simp [ensure_list_of_type] <;> simp [isListVal] at hnl
  · intro l h1 hres hl v hv
    cases values with
    | list xs =>
      simp only [ensure_list_of_type] at hres
      exact ensure_list_go_sound name spec _ an vdt cvt hne xs 0 h l h1 hres v hv
    | none => simp [isListVal] at hl
    | bool b => simp [isListVal] at hl
    | int n => simp [isListVal] at hl
    | float f => simp [isListVal] at hl
    | str s => simp [isListVal] at hl
    | obj c attrs => simp [isListVal] at hl

/-- Witness for C5 (amended): a non-list input yields the empty default
list, and the concrete run on `["abc"]` with `allow_none=True` returns
`[None]`, whose only element satisfies the amended disjunction. -/
theorem c5_ensure_list_elements_amended_witness :
    (ensure_list_of_type (.int 3) "xs" (.one (.ty .tInt)) Option.none
        Option.none true Option.none Option.none ⟨[], []⟩).1 =
      .ok ((Option.none : Option (List PyVal)).getD []) ∧
    (∀ v ∈ [PyVal.none], isinstanceSpec v (.one (.ty .tInt)) = .ok true ∨
      (true = true ∧ v = PyVal.none)) :=
  ⟨(c5_ensure_list_elements_amended (.int 3) "xs" (.one (.ty .tInt))
      Option.none Option.none true Option.none Option.none ⟨[], []⟩
      (by decide)).1 rfl,
   (c5_ensure_list_elements_amended (.list [.str "abc"]) "xs"
      (.one (.ty .tInt)) Option.none Option.none true Option.none Option.none
      ⟨[], []⟩ (by decide)).2 [PyVal.none]
      (ensure_list_of_type (.list [.str "abc"]) "xs" (.one (.ty .tInt))
        Option.none Option.none true Option.none Option.none ⟨[], []⟩).2
      rfl rfl⟩

end Catchery
